import Mathlib

/-!
Verification development for the go-logit/logit output engine.

The Go sources are shallowly embedded: each Go function becomes a Lean
definition with the same control flow; interface values that may be nil are
embedded as `Option`; interface type assertions (capability probes such as
`w.(Flusher)`) become explicit boolean capability flags carried by the
embedded value; filesystem and stdlib effects are abstracted to explicit
oracle parameters.
-/

namespace Logit

/-! ## Levels (src/core.go)

Go's `Level` is an integral type with named constants; `encoders.of` and
`writers.of` compare the argument against the debug/info/warn constants and
fall through to the error entry for everything else (including levels such
as `OffLevel` or values outside the declared constants). -/

abbrev Level := Nat

def DebugLevel : Level := 0

def InfoLevel : Level := 1

def WarnLevel : Level := 2

def ErrorLevel : Level := 3

def OffLevel : Level := 4

/-! ## encoders (src/core.go, lines 80-158)

The `lock` field only serializes access and has no effect on the values
stored, so the embedding keeps the four per-level entries. The entry type is
a parameter `E`; instantiating `E := Option α` models Go interface values
that may be nil (`none`). -/

structure Encoders (E : Type) where
  debugEncoder : E
  infoEncoder : E
  warnEncoder : E
  errorEncoder : E
  deriving Repr, DecidableEq

def newEncoders {E : Type} (encoder : E) : Encoders E :=
  { debugEncoder := encoder
    infoEncoder := encoder
    warnEncoder := encoder
    errorEncoder := encoder }

def Encoders.of {E : Type} (es : Encoders E) (level : Level) : E :=
  if level = DebugLevel then es.debugEncoder
  else if level = InfoLevel then es.infoEncoder
  else if level = WarnLevel then es.warnEncoder
  else es.errorEncoder

def Encoders.SetEncoder {E : Type} (es : Encoders E) (encoder : E) : Encoders E :=
  { es with
    debugEncoder := encoder
    infoEncoder := encoder
    warnEncoder := encoder
    errorEncoder := encoder }

def Encoders.SetDebugEncoder {E : Type} (es : Encoders E) (encoder : E) : Encoders E :=
  { es with debugEncoder := encoder }

def Encoders.SetInfoEncoder {E : Type} (es : Encoders E) (encoder : E) : Encoders E :=
  { es with infoEncoder := encoder }

def Encoders.SetWarnEncoder {E : Type} (es : Encoders E) (encoder : E) : Encoders E :=
  { es with warnEncoder := encoder }

def Encoders.SetErrorEncoder {E : Type} (es : Encoders E) (encoder : E) : Encoders E :=
  { es with errorEncoder := encoder }

/-! ## writers (src/core.go, lines 162-240) — mirrors `encoders` -/

structure Writers (W : Type) where
  debugWriter : W
  infoWriter : W
  warnWriter : W
  errorWriter : W
  deriving Repr, DecidableEq

def newWriters {W : Type} (writer : W) : Writers W :=
  { debugWriter := writer
    infoWriter := writer
    warnWriter := writer
    errorWriter := writer }

def Writers.of {W : Type} (ws : Writers W) (level : Level) : W :=
  if level = DebugLevel then ws.debugWriter
  else if level = InfoLevel then ws.infoWriter
  else if level = WarnLevel then ws.warnWriter
  else ws.errorWriter

def Writers.SetWriter {W : Type} (ws : Writers W) (writer : W) : Writers W :=
  { ws with
    debugWriter := writer
    infoWriter := writer
    warnWriter := writer
    errorWriter := writer }

def Writers.SetDebugWriter {W : Type} (ws : Writers W) (writer : W) : Writers W :=
  { ws with debugWriter := writer }

def Writers.SetInfoWriter {W : Type} (ws : Writers W) (writer : W) : Writers W :=
  { ws with infoWriter := writer }

def Writers.SetWarnWriter {W : Type} (ws : Writers W) (writer : W) : Writers W :=
  { ws with warnWriter := writer }

def Writers.SetErrorWriter {W : Type} (ws : Writers W) (writer : W) : Writers W :=
  { ws with errorWriter := writer }

/-! ## Mutation sequences over the dispatch table (for the non-null invariant)

Each constructor embeds one of the `Set*` methods of `encoders`/`writers`;
applying a list of mutations embeds an arbitrary interleaving of setter
calls after construction. -/

inductive EncMutation (E : Type) where
  | setAll (encoder : E)
  | setDebug (encoder : E)
  | setInfo (encoder : E)
  | setWarn (encoder : E)
  | setError (encoder : E)

def EncMutation.arg {E : Type} : EncMutation E → E
  | .setAll e => e
  | .setDebug e => e
  | .setInfo e => e
  | .setWarn e => e
  | .setError e => e

def Encoders.applyMutation {E : Type} (es : Encoders E) : EncMutation E → Encoders E
  | .setAll e => es.SetEncoder e
  | .setDebug e => es.SetDebugEncoder e
  | .setInfo e => es.SetInfoEncoder e
  | .setWarn e => es.SetWarnEncoder e
  | .setError e => es.SetErrorEncoder e

def Encoders.applyMutations {E : Type} (es : Encoders E) (ms : List (EncMutation E)) :
    Encoders E :=
  ms.foldl Encoders.applyMutation es

inductive WrMutation (W : Type) where
  | setAll (writer : W)
  | setDebug (writer : W)
  | setInfo (writer : W)
  | setWarn (writer : W)
  | setError (writer : W)

def WrMutation.arg {W : Type} : WrMutation W → W
  | .setAll w => w
  | .setDebug w => w
  | .setInfo w => w
  | .setWarn w => w
  | .setError w => w

def Writers.applyMutation {W : Type} (ws : Writers W) : WrMutation W → Writers W
  | .setAll w => ws.SetWriter w
  | .setDebug w => ws.SetDebugWriter w
  | .setInfo w => ws.SetInfoWriter w
  | .setWarn w => ws.SetWarnWriter w
  | .setError w => ws.SetErrorWriter w

def Writers.applyMutations {W : Type} (ws : Writers W) (ms : List (WrMutation W)) :
    Writers W :=
  ms.foldl Writers.applyMutation ws

/-- All four entries of an encoder table are non-nil. -/
def Encoders.allSome {α : Type} (es : Encoders (Option α)) : Prop :=
  es.debugEncoder.isSome ∧ es.infoEncoder.isSome ∧
    es.warnEncoder.isSome ∧ es.errorEncoder.isSome

/-- All four entries of a writer table are non-nil. -/
def Writers.allSome {α : Type} (ws : Writers (Option α)) : Prop :=
  ws.debugWriter.isSome ∧ ws.infoWriter.isSome ∧
    ws.warnWriter.isSome ∧ ws.errorWriter.isSome

/-! ## writer package (src/unnamed/part_001)

A Go `io.Writer` value is embedded as an `Underlying`: the boolean fields
record which interfaces the dynamic value additionally implements (the type
assertions `writer.(Writer)`, `ww.writer.(Flusher)`, `ww.writer.(io.Closer)`
probe them), `flushResult`/`closeResult` are the values its own
`Flush`/`Close` would return, and `flushCalls`/`closeCalls` count how often
those methods have been invoked on it. Errors are `Option String`
(`none` = Go `nil` error). -/

structure Underlying where
  isWriterIface : Bool
  isFlusher : Bool
  isCloser : Bool
  flushResult : Nat × Option String
  closeResult : Option String
  flushCalls : Nat
  closeCalls : Nat
  deriving Repr, DecidableEq

/-- `writerWrapper.Flush`: delegate to the underlying `Flusher` when the type
assertion succeeds, otherwise return `(0, nil)` without touching the
underlying writer. -/
def writerWrapperFlush (w : Underlying) : (Nat × Option String) × Underlying :=
  if w.isFlusher then (w.flushResult, { w with flushCalls := w.flushCalls + 1 })
  else ((0, none), w)

/-- `writerWrapper.Close`: delegate to the underlying `io.Closer` when the
type assertion succeeds, otherwise return `nil` without touching the
underlying writer. -/
def writerWrapperClose (w : Underlying) : Option String × Underlying :=
  if w.isCloser then (w.closeResult, { w with closeCalls := w.closeCalls + 1 })
  else (none, w)

/-- Result of `Wrapped`/`Buffered`: either the argument itself, or a freshly
allocated wrapper/buffered writer around it. -/
inductive WrapResult where
  | original
  | wrapper
  | buffered
  deriving Repr, DecidableEq

/-- `Wrapped(writer)`: return `writer` itself when it already implements the
`Writer` interface, otherwise wrap it in a `writerWrapper`. -/
def Wrapped (writer : Underlying) : WrapResult :=
  if writer.isWriterIface then .original else .wrapper

/-- `Buffered(writer)`: return `writer` itself when it already implements the
`Writer` interface, otherwise wrap it in a buffered writer of the default
buffer size. -/
def Buffered (writer : Underlying) : WrapResult :=
  if writer.isWriterIface then .original else .buffered

/-! ## Logger.Sync / Logger.Close (src/unnamed/part_003, lines 297-317)

The handler held by a `Logger` is embedded like `Underlying`: capability
flags for the `Syncer` and `io.Closer` type assertions, the results its own
`Sync`/`Close` would return, and invocation counters. -/

structure Handler where
  isSyncer : Bool
  isCloser : Bool
  syncResult : Option String
  closeResult : Option String
  syncCalls : Nat
  closeCalls : Nat
  deriving Repr, DecidableEq

/-- `Logger.Sync`: delegate to the handler's `Sync` when the `Syncer` type
assertion succeeds, otherwise return `nil`. -/
def loggerSync (h : Handler) : Option String × Handler :=
  if h.isSyncer then (h.syncResult, { h with syncCalls := h.syncCalls + 1 })
  else (none, h)

/-- `Logger.Close`: call `Sync` and return its error if non-nil; otherwise
call the handler's `Close` when the `io.Closer` type assertion succeeds,
otherwise return `nil`. -/
def loggerClose (h : Handler) : Option String × Handler :=
  match loggerSync h with
  | (some e, h1) => (some e, h1)
  | (none, h1) =>
    if h1.isCloser then (h1.closeResult, { h1 with closeCalls := h1.closeCalls + 1 })
    else (none, h1)

/-! ## SizeRollingFile (src/handler_test.go, wrapper part; spec §4.1) -/

/-- Modelled from the spec: only the `SizeRollingFile` struct declaration is
under src/ — its `Write`/rotation methods are missing — so the write path is
modelled from the spec: "when `currentSize>0 AND currentSize+len(bytes)>maxSize`,
rotate before writing — so a single write larger than `maxSize` is never
split". Files are byte lists; `rolledFiles` are the rotated-out files in
order and `current` is the content of the active file. -/
structure SizeRollingFile where
  rolledFiles : List (List Nat)
  current : List Nat
  currentSize : Nat
  maxSize : Nat
  deriving Repr, DecidableEq

/-- Rotation test of the write path: `currentSize > 0 && currentSize+len(b) > maxSize`. -/
def SizeRollingFile.shouldRotate (f : SizeRollingFile) (b : List Nat) : Bool :=
  decide (0 < f.currentSize) && decide (f.maxSize < f.currentSize + b.length)

/-- Rotate: retire the current file as an immutable backup, open a fresh
empty file, reset `currentSize` to 0. -/
def SizeRollingFile.rotate (f : SizeRollingFile) : SizeRollingFile :=
  { f with rolledFiles := f.rolledFiles ++ [f.current], current := [], currentSize := 0 }

/-- Write: rotate first exactly when `shouldRotate`, then append the whole
payload to the current file and account its size. -/
def SizeRollingFile.write (f : SizeRollingFile) (b : List Nat) : SizeRollingFile :=
  let f1 := if f.shouldRotate b then f.rotate else f
  { f1 with current := f1.current ++ b, currentSize := f1.currentSize + b.length }

/-! ## DefaultNameGenerator (src/unnamed/part_000, files part)

The generator formats the current time and appends a draw of
`rand.Intn(1000000)` from an unsynchronized random source. The embedding
makes the random draw an explicit oracle input (any value `< 1000000` is a
possible draw) and the formatted timestamp a string input. -/

def SuffixOfLogFile : String := ".log"

/-- `filepath.Join(directory, name)` for a simple two-component join. -/
def filepathJoin (directory name : String) : String :=
  directory ++ "/" ++ name

/-- The closure returned by `DefaultNameGenerator`:
`filepath.Join(directory, now.Format("20060102-150405") + "-" + strconv.Itoa(rand.Intn(1000000)) + SuffixOfLogFile)`
with the random draw passed explicitly. -/
def defaultGeneratedName (directory formattedNow : String) (randomDraw : Nat) : String :=
  filepathJoin directory (formattedNow ++ "-" ++ toString randomDraw ++ SuffixOfLogFile)

/-! ## Auto-sync background task
(src/unnamed/part_000 `Config.newWriter` goroutine; src/unnamed/part_003
`Logger.runSyncTask`)

Both loops are `for { time.Sleep(d); if err := Sync(); err != nil {
defaults.HandleError(op, err) } }`. One tick sleeps, syncs, and routes a
non-nil error to the process-wide handler; the writer's behavior is an
oracle giving each tick's sync result (`none` = nil error). The loop body
offers no return channel, so no error can reach a caller; `runSyncTask n`
is the state after `n` ticks. -/

structure SyncTaskState where
  syncCalls : Nat
  handledErrors : List (String × String)
  deriving Repr, DecidableEq

def syncTick (op : String) (result : Option String) (s : SyncTaskState) : SyncTaskState :=
  { syncCalls := s.syncCalls + 1
    handledErrors :=
      match result with
      | some e => s.handledErrors ++ [(op, e)]
      | none => s.handledErrors }

def runSyncTask (op : String) (results : Nat → Option String) : Nat → SyncTaskState
  | 0 => { syncCalls := 0, handledErrors := [] }
  | n + 1 => syncTick op (results n) (runSyncTask op results n)

/-! ## String parsing helpers

The Go config strings are embedded as `List Char`. `strings.HasSuffix` /
`strings.TrimSuffix` are only applied with single-character suffixes in the
source (`"d"`, `"D"`), so they are embedded at that arity. -/

def isDigitCh (c : Char) : Bool :=
  decide ('0' ≤ c) && decide (c ≤ '9')

/-- `strings.HasSuffix(s, string(c))` for a one-character suffix. -/
def hasSuffix1 (s : List Char) (c : Char) : Bool :=
  s.getLast? == some c

/-- `strings.TrimSuffix(s, string(c))` for a one-character suffix. -/
def trimSuffix1 (s : List Char) (c : Char) : List Char :=
  if hasSuffix1 s c then s.dropLast else s

/-- Longest digit run at the front of the input, and the rest. -/
def takeDigits : List Char → List Char × List Char
  | [] => ([], [])
  | c :: rest =>
    if isDigitCh c then
      let (ds, r) := takeDigits rest
      (c :: ds, r)
    else ([], c :: rest)

/-- Value of a digit run, most significant first. -/
def digitsVal (ds : List Char) : Nat :=
  ds.foldl (fun acc c => acc * 10 + (c.toNat - 48)) 0

/-- Longest unit run at the front of the input (characters that are neither
digits nor a decimal point), and the rest. -/
def takeUnit : List Char → List Char × List Char
  | [] => ([], [])
  | c :: rest =>
    if isDigitCh c || c = '.' then ([], c :: rest)
    else
      let (us, r) := takeUnit rest
      (c :: us, r)

/-- Optional leading sign, as in Go's `strconv.ParseInt` and
`time.ParseDuration`: `(negative, remainder)`. -/
def splitSign (s : List Char) : Bool × List Char :=
  match s with
  | [] => (false, [])
  | c :: rest =>
    if c = '-' then (true, rest)
    else if c = '+' then (false, rest)
    else (false, c :: rest)

/-- `strconv.ParseInt(s, 10, 64)`: optional sign, non-empty digit run, value
must fit in a signed 64-bit integer. -/
def parseInt64 (s : List Char) : Except String Int :=
  let p := splitSign s
  if p.2.isEmpty then .error "invalid syntax"
  else if p.2.all isDigitCh then
    let n := digitsVal p.2
    if p.1 then
      if n ≤ 2 ^ 63 then .ok (-(n : Int)) else .error "value out of range"
    else
      if n < 2 ^ 63 then .ok (n : Int) else .error "value out of range"
  else .error "invalid syntax"

/-- `time.ParseDuration`'s unit table, in nanoseconds. -/
def unitScale (u : List Char) : Option Nat :=
  if u = "ns".data then some 1
  else if u = "us".data then some 1000
  else if u = "µs".data then some 1000
  else if u = "μs".data then some 1000
  else if u = "ms".data then some 1000000
  else if u = "s".data then some 1000000000
  else if u = "m".data then some 60000000000
  else if u = "h".data then some 3600000000000
  else none

/-- Item loop of `time.ParseDuration`: repeat (digits, optional fraction,
unit) and sum the contributions. Fractions are computed exactly over the
integers instead of via `float64`, and the (~292-year) overflow check is
omitted; neither difference matters at integral sub-day durations. Every
iteration that recurses consumes at least one character, so fuel
`length + 1` never runs out. -/
def parseDurationLoop : Nat → List Char → Except String Nat
  | 0, _ => .error "time: invalid duration"
  | _, [] => .ok 0
  | fuel + 1, s =>
    let p := takeDigits s
    let q :=
      match p.2 with
      | '.' :: rest => takeDigits rest
      | _ => ([], p.2)
    if p.1.isEmpty && q.1.isEmpty then .error "time: invalid duration"
    else
      let r := takeUnit q.2
      if r.1.isEmpty then .error "time: missing unit in duration"
      else
        match unitScale r.1 with
        | none => .error "time: unknown unit in duration"
        | some scale =>
          let v := digitsVal p.1 * scale + digitsVal q.1 * scale / 10 ^ q.1.length
          match parseDurationLoop fuel r.2 with
          | .error e => .error e
          | .ok d => .ok (d + v)

/-- `time.ParseDuration`: optional sign, the special case `"0"`, then the
item loop; the result is in nanoseconds. -/
def ParseDuration (s : List Char) : Except String Int :=
  let p := splitSign s
  if p.2 = ['0'] then .ok 0
  else if p.2.isEmpty then .error "time: invalid duration"
  else
    match parseDurationLoop (p.2.length + 1) p.2 with
    | .error e => .error e
    | .ok n => .ok (if p.1 then -(n : Int) else (n : Int))

/-- `defaults.Day = 24 * time.Hour`, in nanoseconds (the defaults package is
an external collaborator; the constant is fixed by the spec's "n times 24
hours"). -/
def Day : Nat := 24 * 3600 * 1000000000

/-- Signed 64-bit wrap-around of Go's `time.Duration(days) * defaults.Day`
multiplication. -/
def int64Wrap (z : Int) : Int :=
  (z + 2 ^ 63) % 2 ^ 64 - 2 ^ 63

/-- `Config.parseTimeDuration` (src/unnamed/part_000, lines 157-171): strip a
`"d"`/`"D"` suffix and multiply the parsed day count by `defaults.Day`;
otherwise delegate to `time.ParseDuration`. -/
def parseTimeDuration (s : List Char) : Except String Int :=
  if hasSuffix1 s 'd' || hasSuffix1 s 'D' then
    let s1 := trimSuffix1 s 'd'
    let s2 := trimSuffix1 s1 'D'
    match parseInt64 s2 with
    | .error e => .error e
    | .ok days => .ok (int64Wrap (days * (Day : Int)))
  else ParseDuration s

/-- Modelled from the spec: `size.ParseByteSize` of the io/size package is
not under src/; modelled from spec §6's "human-readable byte-size strings
(e.g. "512B", "16KB", "4MB", "1GB")" — a decimal count followed by a unit
B/KB/MB/GB. -/
def parseByteSize (s : List Char) : Except String Nat :=
  let p := takeDigits s
  if p.1.isEmpty then .error "size invalid"
  else if p.2 = ['B'] then .ok (digitsVal p.1)
  else if p.2 = ['K', 'B'] then .ok (digitsVal p.1 * 1024)
  else if p.2 = ['M', 'B'] then .ok (digitsVal p.1 * 1024 * 1024)
  else if p.2 = ['G', 'B'] then .ok (digitsVal p.1 * 1024 * 1024 * 1024)
  else .error "size invalid"

/-! ## Config and Config.newWriter (src/unnamed/part_000, lines 33-267)

Writers built by `newWriter` are represented by their construction shape;
filesystem effects (`file.New`, `os.MkdirAll`, `defaults.OpenFile`) are
abstracted to a success flag `fsOk` — they fail exactly when `fsOk = false`.
Fields that `newWriter` never reads (permission bits, paths) are kept as
plain data. -/

structure WriterConfig where
  target : List Char
  mode : List Char
  bufferSize : List Char
  batchSize : Nat
  autoSync : List Char

structure FileConfig where
  path : List Char
  mode : Nat
  dirMode : Nat
  rotate : Bool
  maxSize : List Char
  maxAge : List Char
  maxBackups : Int

structure Config where
  level : List Char
  handler : List Char
  writer : WriterConfig
  file : FileConfig

/-- The shape of the writer value built by `Config.newWriter`. -/
inductive GoWriter where
  | stdout
  | stderr
  | file
  | wrap (w : GoWriter)
  | buffer (w : GoWriter) (bufferSize : Nat)
  | batch (w : GoWriter) (batchSize : Nat)
  deriving Repr, DecidableEq

def exceptOk {ε α : Type} : Except ε α → Bool
  | .ok _ => true
  | .error _ => false

/-- `Config.newFile`: under `Rotate`, parse `MaxSize` and `MaxAge` when
non-empty (`MaxBackups` needs no parse) and create the rotating file;
otherwise create the parent directory and open the plain file. -/
def Config.newFile (fsOk : Bool) (c : Config) : Except String GoWriter :=
  if c.file.rotate then
    match (if c.file.maxSize.isEmpty then .ok 0 else parseByteSize c.file.maxSize) with
    | .error e => .error e
    | .ok _ =>
      match (if c.file.maxAge.isEmpty then .ok 0 else parseTimeDuration c.file.maxAge) with
      | .error e => .error e
      | .ok _ => if fsOk then .ok .file else .error "file.New failed"
  else
    if fsOk then .ok .file else .error "open file failed"

/-- First switch of `Config.newWriter`: resolve the target. -/
def Config.targetWriter (fsOk : Bool) (c : Config) : Except String GoWriter :=
  if c.writer.target = "stdout".data then .ok .stdout
  else if c.writer.target = "stderr".data then .ok .stderr
  else if c.writer.target = "file".data then
    match c.newFile fsOk with
    | .error e => .error e
    | .ok f => .ok (.wrap f)
  else .error "writer target invalid"

/-- Second switch of `Config.newWriter`: apply the mode. -/
def Config.modeWriter (c : Config) (w : GoWriter) : Except String GoWriter :=
  if c.writer.mode = "direct".data then .ok w
  else if c.writer.mode = "buffer".data then
    match parseByteSize c.writer.bufferSize with
    | .error e => .error e
    | .ok n => .ok (.buffer w n)
  else if c.writer.mode = "batch".data then .ok (.batch w c.writer.batchSize)
  else .error "writer mode invalid"

/-- Tail of `Config.newWriter`: when `AutoSync` is non-empty, parse it with
`time.ParseDuration` and spawn the auto-sync goroutine (modelled separately
by `runSyncTask`). -/
def Config.autoSyncCheck (c : Config) (w : GoWriter) : Except String GoWriter :=
  if c.writer.autoSync.isEmpty then .ok w
  else
    match ParseDuration c.writer.autoSync with
    | .error e => .error e
    | .ok _ => .ok w

/-- Go's early-return sequencing of two fallible steps. -/
def exSeq {ε α β : Type} (x : Except ε α) (f : α → Except ε β) : Except ε β :=
  match x with
  | .error e => .error e
  | .ok a => f a

def Config.newWriter (fsOk : Bool) (c : Config) : Except String GoWriter :=
  exSeq (c.targetWriter fsOk) fun w =>
    exSeq (c.modeWriter w) fun w2 =>
      c.autoSyncCheck w2

/-- Validity of a writer configuration, following the spec's words: target in
stdout/stderr/file, mode in direct/buffer/batch, and every size / duration
string that the construction actually parses must parse. -/
def specWriterConfigOk (c : Config) : Bool :=
  (c.writer.target = "stdout".data || c.writer.target = "stderr".data ||
    (c.writer.target = "file".data &&
      (!c.file.rotate ||
        ((c.file.maxSize.isEmpty || exceptOk (parseByteSize c.file.maxSize)) &&
          (c.file.maxAge.isEmpty || exceptOk (parseTimeDuration c.file.maxAge)))))) &&
  (c.writer.mode = "direct".data ||
    (c.writer.mode = "buffer".data && exceptOk (parseByteSize c.writer.bufferSize)) ||
    c.writer.mode = "batch".data) &&
  (c.writer.autoSync.isEmpty || exceptOk (ParseDuration c.writer.autoSync))

end Logit

namespace Logit

theorem Encoders.allSome_applyMutation {α : Type} {es : Encoders (Option α)}
    {m : EncMutation (Option α)} (hes : es.allSome) (hm : m.arg.isSome) :
    (es.applyMutation m).allSome := by
  obtain ⟨h1, h2, h3, h4⟩ := hes
  cases m <;>
    simp_all [Encoders.applyMutation, EncMutation.arg, Encoders.allSome,
      Encoders.SetEncoder, Encoders.SetDebugEncoder, Encoders.SetInfoEncoder,
      Encoders.SetWarnEncoder, Encoders.SetErrorEncoder]

theorem Encoders.allSome_applyMutations {α : Type} {es : Encoders (Option α)}
    {ms : List (EncMutation (Option α))} (hes : es.allSome)
    (hms : ∀ m ∈ ms, m.arg.isSome) : (es.applyMutations ms).allSome := by
  induction ms generalizing es with
  | nil => exact hes
  | cons m rest ih =>
    have hm : m.arg.isSome = true := hms m (List.mem_cons_self m rest)
    have hrest : ∀ m' ∈ rest, m'.arg.isSome = true := fun m' h =>
      hms m' (List.mem_cons_of_mem m h)
    exact ih (Encoders.allSome_applyMutation hes hm) hrest

theorem Writers.allSome_afterMutation {α : Type} {ws : Writers (Option α)}
    {m : WrMutation (Option α)} (hws : ws.allSome) (hm : m.arg.isSome) :
    (ws.applyMutation m).allSome := by
  obtain ⟨h1, h2, h3, h4⟩ := hws
  cases m <;>
    simp_all [Writers.applyMutation, WrMutation.arg, Writers.allSome,
      Writers.SetWriter, Writers.SetDebugWriter, Writers.SetInfoWriter,
      Writers.SetWarnWriter, Writers.SetErrorWriter]

theorem Writers.allSome_afterMutations {α : Type} {ws : Writers (Option α)}
    {ms : List (WrMutation (Option α))} (hws : ws.allSome)
    (hms : ∀ m ∈ ms, m.arg.isSome) : (ws.applyMutations ms).allSome := by
  induction ms generalizing ws with
  | nil => exact hws
  | cons m rest ih =>
    have hm : m.arg.isSome = true := hms m (List.mem_cons_self m rest)
    have hrest : ∀ m' ∈ rest, m'.arg.isSome = true := fun m' h =>
      hms m' (List.mem_cons_of_mem m h)
    exact ih (Writers.allSome_afterMutation hws hm) hrest

theorem Encoders.of_isSome_of_allSome {α : Type} {es : Encoders (Option α)}
    (hes : es.allSome) (level : Level) : (es.of level).isSome := by
  obtain ⟨h1, h2, h3, h4⟩ := hes
  unfold Encoders.of
  split
  · exact h1
  · split
    · exact h2
    · split
      · exact h3
      · exact h4

theorem Writers.of_isSome_when_allSome {α : Type} {ws : Writers (Option α)}
    (hws : ws.allSome) (level : Level) : (ws.of level).isSome := by
  obtain ⟨h1, h2, h3, h4⟩ := hws
  unfold Writers.of
  split
  · exact h1
  · split
    · exact h2
    · split
      · exact h3
      · exact h4

/-- C1: `encoders.of` and `writers.of` return the entry configured for each of
the recognized levels debug, info and warn, and fall back to the error
(highest-severity) entry for every other level value. -/
theorem c1_dispatch_of {E W : Type} (es : Encoders E) (ws : Writers W) :
    es.of DebugLevel = es.debugEncoder ∧
    es.of InfoLevel = es.infoEncoder ∧
    es.of WarnLevel = es.warnEncoder ∧
    ws.of DebugLevel = ws.debugWriter ∧
    ws.of InfoLevel = ws.infoWriter ∧
    ws.of WarnLevel = ws.warnWriter ∧
    (∀ level : Level,
      level ≠ DebugLevel → level ≠ InfoLevel → level ≠ WarnLevel →
        es.of level = es.errorEncoder ∧ ws.of level = ws.errorWriter) := by
  refine ⟨rfl, rfl, rfl, rfl, rfl, rfl, ?_⟩
  intro level hd hi hw
  constructor
  · simp [Encoders.of, hd, hi, hw]
  · simp [Writers.of, hd, hi, hw]

/-- Witness for C1 at concrete tables and the unrecognized level `OffLevel`. -/
theorem c1_dispatch_of_witness :
    (newEncoders (0 : Nat)).of OffLevel = (newEncoders (0 : Nat)).errorEncoder ∧
    (newWriters (1 : Nat)).of OffLevel = (newWriters (1 : Nat)).errorWriter :=
  ((c1_dispatch_of (newEncoders (0 : Nat)) (newWriters (1 : Nat))).2.2.2.2.2.2
    OffLevel (by decide) (by decide) (by decide))

/-- C9: each per-level setter changes only its own level's entry and leaves
every other entry unchanged, while `SetEncoder`/`SetWriter` replace the
entries of all four levels with the given value. -/
theorem c9_setters_frame {E W : Type} (es : Encoders E) (ws : Writers W)
    (e : E) (w : W) :
    (es.SetDebugEncoder e).debugEncoder = e ∧
    (es.SetDebugEncoder e).infoEncoder = es.infoEncoder ∧
    (es.SetDebugEncoder e).warnEncoder = es.warnEncoder ∧
    (es.SetDebugEncoder e).errorEncoder = es.errorEncoder ∧
    (es.SetInfoEncoder e).infoEncoder = e ∧
    (es.SetInfoEncoder e).debugEncoder = es.debugEncoder ∧
    (es.SetInfoEncoder e).warnEncoder = es.warnEncoder ∧
    (es.SetInfoEncoder e).errorEncoder = es.errorEncoder ∧
    (es.SetWarnEncoder e).warnEncoder = e ∧
    (es.SetWarnEncoder e).debugEncoder = es.debugEncoder ∧
    (es.SetWarnEncoder e).infoEncoder = es.infoEncoder ∧
    (es.SetWarnEncoder e).errorEncoder = es.errorEncoder ∧
    (es.SetErrorEncoder e).errorEncoder = e ∧
    (es.SetErrorEncoder e).debugEncoder = es.debugEncoder ∧
    (es.SetErrorEncoder e).infoEncoder = es.infoEncoder ∧
    (es.SetErrorEncoder e).warnEncoder = es.warnEncoder ∧
    es.SetEncoder e = newEncoders e ∧
    (ws.SetDebugWriter w).debugWriter = w ∧
    (ws.SetDebugWriter w).infoWriter = ws.infoWriter ∧
    (ws.SetDebugWriter w).warnWriter = ws.warnWriter ∧
    (ws.SetDebugWriter w).errorWriter = ws.errorWriter ∧
    (ws.SetInfoWriter w).infoWriter = w ∧
    (ws.SetInfoWriter w).debugWriter = ws.debugWriter ∧
    (ws.SetInfoWriter w).warnWriter = ws.warnWriter ∧
    (ws.SetInfoWriter w).errorWriter = ws.errorWriter ∧
    (ws.SetWarnWriter w).warnWriter = w ∧
    (ws.SetWarnWriter w).debugWriter = ws.debugWriter ∧
    (ws.SetWarnWriter w).infoWriter = ws.infoWriter ∧
    (ws.SetWarnWriter w).errorWriter = ws.errorWriter ∧
    (ws.SetErrorWriter w).errorWriter = w ∧
    (ws.SetErrorWriter w).debugWriter = ws.debugWriter ∧
    (ws.SetErrorWriter w).infoWriter = ws.infoWriter ∧
    (ws.SetErrorWriter w).warnWriter = ws.warnWriter ∧
    ws.SetWriter w = newWriters w := by
  repeat' constructor

/-- C8: a dispatch table constructed by `newEncoders`/`newWriters` from
non-nil values, after any sequence of `Set*` mutations with non-nil
arguments, resolves every level through `of` to a non-nil (encoder, writer)
pair. -/
theorem c8_of_never_nil {α β : Type} (e0 : Option α) (w0 : Option β)
    (ems : List (EncMutation (Option α))) (wms : List (WrMutation (Option β)))
    (he0 : e0.isSome) (hw0 : w0.isSome)
    (hems : ∀ m ∈ ems, m.arg.isSome) (hwms : ∀ m ∈ wms, m.arg.isSome) :
    ∀ level : Level,
      (((newEncoders e0).applyMutations ems).of level).isSome ∧
        (((newWriters w0).applyMutations wms).of level).isSome := by
  intro level
  have hes : (newEncoders e0).allSome := ⟨he0, he0, he0, he0⟩
  have hws : (newWriters w0).allSome := ⟨hw0, hw0, hw0, hw0⟩
  exact ⟨Encoders.of_isSome_of_allSome (Encoders.allSome_applyMutations hes hems) level,
    Writers.of_isSome_when_allSome (Writers.allSome_afterMutations hws hwms) level⟩

/-- Witness for C8: a concrete table over `Option Nat`, mutated by a concrete
sequence of setters with non-nil arguments, resolves `WarnLevel` to a non-nil
pair. -/
theorem c8_of_never_nil_witness :
    (((newEncoders (some 1)).applyMutations
        [EncMutation.setDebug (some 2), EncMutation.setAll (some 3)]).of WarnLevel).isSome ∧
      (((newWriters (some 4)).applyMutations
        [WrMutation.setWarn (some 5)]).of WarnLevel).isSome :=
  c8_of_never_nil (some 1) (some 4)
    [EncMutation.setDebug (some 2), EncMutation.setAll (some 3)]
    [WrMutation.setWarn (some 5)]
    (by decide) (by decide)
    (by intro m hm; fin_cases hm <;> decide)
    (by intro m hm; fin_cases hm; decide)
    WarnLevel

theorem exceptOk_newFile (c : Config) :
    exceptOk (c.newFile true) =
      (!c.file.rotate ||
        ((c.file.maxSize.isEmpty || exceptOk (parseByteSize c.file.maxSize)) &&
          (c.file.maxAge.isEmpty || exceptOk (parseTimeDuration c.file.maxAge)))) := by
  unfold Config.newFile
  by_cases hr : c.file.rotate = true <;>
  by_cases hms : c.file.maxSize.isEmpty = true <;>
  by_cases hma : c.file.maxAge.isEmpty = true <;>
  rcases h1 : parseByteSize c.file.maxSize with e1 | v1 <;>
  rcases h2 : parseTimeDuration c.file.maxAge with e2 | v2 <;>
  simp [hr, hms, hma, h1, h2, exceptOk]

theorem exceptOk_targetWriter (c : Config) :
    exceptOk (c.targetWriter true) =
      (c.writer.target = "stdout".data || c.writer.target = "stderr".data ||
        (c.writer.target = "file".data && exceptOk (c.newFile true))) := by
  unfold Config.targetWriter
  by_cases h1 : c.writer.target = "stdout".data <;>
  by_cases h2 : c.writer.target = "stderr".data <;>
  by_cases h3 : c.writer.target = "file".data <;>
  rcases hf : c.newFile true with e | f <;>
  simp [h1, h2, h3, hf, exceptOk]

theorem exceptOk_modeWriter (c : Config) (w : GoWriter) :
    exceptOk (c.modeWriter w) =
      (c.writer.mode = "direct".data ||
        (c.writer.mode = "buffer".data && exceptOk (parseByteSize c.writer.bufferSize)) ||
        c.writer.mode = "batch".data) := by
  unfold Config.modeWriter
  by_cases h1 : c.writer.mode = "direct".data <;>
  by_cases h2 : c.writer.mode = "buffer".data <;>
  by_cases h3 : c.writer.mode = "batch".data <;>
  rcases hb : parseByteSize c.writer.bufferSize with e | n <;>
  simp [h1, h2, h3, hb, exceptOk]

theorem exceptOk_autoSyncCheck (c : Config) (w : GoWriter) :
    exceptOk (c.autoSyncCheck w) =
      (c.writer.autoSync.isEmpty || exceptOk (ParseDuration c.writer.autoSync)) := by
  unfold Config.autoSyncCheck
  by_cases h1 : c.writer.autoSync.isEmpty = true <;>
  rcases hp : ParseDuration c.writer.autoSync with e | d <;>
  simp [h1, hp, exceptOk]

/-- C7: with filesystem operations succeeding, `Config.newWriter` returns a
writer exactly when the configuration is valid in the spec's sense — target
in stdout/stderr/file, mode in direct/buffer/batch, and every size/duration
string the construction parses does parse — and returns an error otherwise.
In the embedding construction is a pure function of the configuration, so a
configuration error cannot affect any previously constructed writer. -/
theorem exceptOk_exSeq_const {ε α β : Type} (x : Except ε α) (f : α → Except ε β)
    (b : Bool) (hf : ∀ a, exceptOk (f a) = b) :
    exceptOk (exSeq x f) = (exceptOk x && b) := by
  cases x with
  | error e => simp [exSeq, exceptOk]
  | ok a => simpa [exSeq, exceptOk] using hf a

theorem c7_new_writer_ok_iff (c : Config) :
    exceptOk (Config.newWriter true c) = specWriterConfigOk c := by
  have hstep : ∀ w : GoWriter,
      exceptOk (exSeq (c.modeWriter w) fun w2 => c.autoSyncCheck w2) =
        ((c.writer.mode = "direct".data ||
            (c.writer.mode = "buffer".data && exceptOk (parseByteSize c.writer.bufferSize)) ||
            c.writer.mode = "batch".data) &&
          (c.writer.autoSync.isEmpty || exceptOk (ParseDuration c.writer.autoSync))) := by
    intro w
    rw [exceptOk_exSeq_const _ _ _ (fun w2 => exceptOk_autoSyncCheck c w2),
      exceptOk_modeWriter]
  unfold Config.newWriter specWriterConfigOk
  rw [exceptOk_exSeq_const _ _ _ hstep, exceptOk_targetWriter, exceptOk_newFile]
  simp [Bool.and_assoc]

theorem hasSuffix1_concat_self (s : List Char) (c : Char) :
    hasSuffix1 (s ++ [c]) c = true := by
  simp [hasSuffix1, List.getLast?_concat]

theorem hasSuffix1_concat_ne (s : List Char) (a c : Char) (h : a ≠ c) :
    hasSuffix1 (s ++ [a]) c = false := by
  simp [hasSuffix1, List.getLast?_concat, h]

theorem hasSuffix1_of_digits (ds : List Char) (hne : ds ≠ [])
    (hall : ds.all isDigitCh = true) (c : Char) (hc : isDigitCh c = false) :
    hasSuffix1 ds c = false := by
  have hd : isDigitCh (ds.getLast hne) = true := by
    rw [List.all_eq_true] at hall
    exact hall _ (List.getLast_mem hne)
  have hlast : ds.getLast? = some (ds.getLast hne) := List.getLast?_eq_getLast ds hne
  have hne2 : ds.getLast hne ≠ c := by
    intro hEq
    rw [hEq, hc] at hd
    cases hd
  simp [hasSuffix1, hlast, hne2]

theorem trimSuffix1_concat_self (s : List Char) (c : Char) :
    trimSuffix1 (s ++ [c]) c = s := by
  simp [trimSuffix1, hasSuffix1_concat_self, List.dropLast_concat]

theorem trimSuffix1_of_not (s : List Char) (c : Char) (h : hasSuffix1 s c = false) :
    trimSuffix1 s c = s := by
  simp [trimSuffix1, h]

theorem splitSign_cons_digit (c : Char) (rest : List Char) (h : isDigitCh c = true) :
    splitSign (c :: rest) = (false, c :: rest) := by
  have h1 : c ≠ '-' := by
    intro hc
    rw [hc] at h
    exact absurd h (by decide)
  have h2 : c ≠ '+' := by
    intro hc
    rw [hc] at h
    exact absurd h (by decide)
  simp [splitSign, h1, h2]

theorem parseInt64_digits (ds : List Char) (n : Nat) (hne : ds ≠ [])
    (hall : ds.all isDigitCh = true) (hval : digitsVal ds = n)
    (hrange : n < 2 ^ 63) : parseInt64 ds = .ok (n : Int) := by
  obtain ⟨c, t, rfl⟩ : ∃ c t, ds = c :: t := by
    cases ds with
    | nil => exact absurd rfl hne
    | cons c t => exact ⟨c, t, rfl⟩
  have hc : isDigitCh c = true := by
    rw [List.all_cons] at hall
    exact (Bool.and_eq_true_iff.mp hall).1
  rw [parseInt64, splitSign_cons_digit c t hc]
  simp [hall, hval]
  exact lt_of_lt_of_le hrange (by norm_num)

/-- C4 counterexample: the day suffix is not supported by the whole
configuration surface — `Config.parseTimeDuration` (used for the file
`MaxAge` string) accepts `"1d"`, but the writer `AutoSync` string is parsed
with plain `time.ParseDuration`, which rejects `"1d"`, so `newWriter` fails
on an otherwise valid configuration whose `AutoSync` is `"1d"`. -/
theorem c4_day_suffix_counterexample :
    parseTimeDuration "1d".data = .ok 86400000000000 ∧
    ParseDuration "1d".data = .error "time: unknown unit in duration" ∧
    exceptOk (Config.newWriter true
      { level := "debug".data, handler := "text".data,
        writer := { target := "stdout".data, mode := "direct".data,
                    bufferSize := "16KB".data, batchSize := 64,
                    autoSync := "1d".data },
        file := { path := [], mode := 420, dirMode := 493, rotate := false,
                  maxSize := [], maxAge := [], maxBackups := 100 } }) = false :=
  ⟨rfl, rfl, rfl⟩

/-- C4 amended: only the file `MaxAge` string — parsed by
`Config.parseTimeDuration` — supports the day suffix: for every decimal
digit string worth `n` days (with `n` in the signed 64-bit range required by
`strconv.ParseInt`), `n` followed by `"d"` or `"D"` parses to the 64-bit
wrap of `n` times 24 hours, and strings without the day suffix are delegated
unchanged to `time.ParseDuration` (so all standard sub-day units remain
accepted); the writer `AutoSync` string is parsed with `time.ParseDuration`
alone and has no day suffix. -/
theorem c4_day_suffix_amended (ds : List Char) (n : Nat) (hne : ds ≠ [])
    (hall : ds.all isDigitCh = true) (hval : digitsVal ds = n)
    (hrange : n < 2 ^ 63) :
    parseTimeDuration (ds ++ ['d']) = .ok (int64Wrap ((n : Int) * (Day : Int))) ∧
    parseTimeDuration (ds ++ ['D']) = .ok (int64Wrap ((n : Int) * (Day : Int))) ∧
    (∀ s : List Char, hasSuffix1 s 'd' = false → hasSuffix1 s 'D' = false →
      parseTimeDuration s = ParseDuration s) := by
  have hint : parseInt64 ds = .ok (n : Int) := parseInt64_digits ds n hne hall hval hrange
  have hD : hasSuffix1 ds 'D' = false := hasSuffix1_of_digits ds hne hall 'D' (by decide)
  refine ⟨?_, ?_, ?_⟩
  · rw [parseTimeDuration, hasSuffix1_concat_self]
    simp only [Bool.true_or, if_true]
    rw [trimSuffix1_concat_self, trimSuffix1_of_not ds 'D' hD, hint]
  · rw [parseTimeDuration, hasSuffix1_concat_self,
      hasSuffix1_concat_ne ds 'D' 'd' (by decide)]
    simp only [Bool.or_true, if_true]
    rw [trimSuffix1_of_not (ds ++ ['D']) 'd'
        (hasSuffix1_concat_ne ds 'D' 'd' (by decide)),
      trimSuffix1_concat_self, hint]
  · intro s h1 h2
    rw [parseTimeDuration, h1, h2]
    simp

/-- Witness for C4 (amended) at the digit string `"7"`. -/
theorem c4_day_suffix_amended_witness :
    parseTimeDuration (['7'] ++ ['d']) = .ok (int64Wrap ((7 : Int) * (Day : Int))) ∧
      parseTimeDuration (['7'] ++ ['D']) = .ok (int64Wrap ((7 : Int) * (Day : Int))) :=
  ⟨(c4_day_suffix_amended ['7'] 7 (by decide) (by decide) (by decide)
      (by norm_num)).1,
    (c4_day_suffix_amended ['7'] 7 (by decide) (by decide) (by decide)
      (by norm_num)).2.1⟩

/-- C10: `Wrapped` and `Buffered` return the argument itself when it already
implements the `Writer` interface (no wrapper and no buffering is added), and
for a wrapped plain `io.Writer` implementing neither `Flusher` nor `Closer`,
`Flush` returns `(0, nil)` and `Close` returns `nil` with the underlying
writer untouched. -/
theorem c10_wrapped_buffered_identity (w : Underlying) :
    (w.isWriterIface = true → Wrapped w = .original ∧ Buffered w = .original) ∧
    (w.isFlusher = false → w.isCloser = false →
      writerWrapperFlush w = ((0, none), w) ∧ writerWrapperClose w = (none, w)) := by
  constructor
  · intro h
    simp [Wrapped, Buffered, h]
  · intro hf hc
    simp [writerWrapperFlush, writerWrapperClose, hf, hc]

/-- Witness for C10 at two concrete underlying writers. -/
theorem c10_wrapped_buffered_identity_witness :
    (Wrapped ⟨true, true, true, (0, none), none, 0, 0⟩ = WrapResult.original ∧
      Buffered ⟨true, true, true, (0, none), none, 0, 0⟩ = WrapResult.original) ∧
    (writerWrapperFlush ⟨false, false, false, (9, none), none, 3, 4⟩ =
        ((0, none), ⟨false, false, false, (9, none), none, 3, 4⟩) ∧
      writerWrapperClose ⟨false, false, false, (9, none), none, 3, 4⟩ =
        (none, ⟨false, false, false, (9, none), none, 3, 4⟩)) :=
  ⟨(c10_wrapped_buffered_identity ⟨true, true, true, (0, none), none, 0, 0⟩).1 rfl,
    (c10_wrapped_buffered_identity ⟨false, false, false, (9, none), none, 3, 4⟩).2 rfl rfl⟩

/-- C6 counterexample: `writerWrapper.Close` on a wrapper whose underlying
value implements both `Flusher` and `io.Closer` invokes the underlying close
without flushing first — the flush counter stays 0 while close is invoked —
refuting "close() first flushes (syncs) and then closes" for the writer
case; and `Logger.Close` on a handler that syncs successfully but implements
no `Closer` never invokes an underlying close, refuting "the underlying close
is invoked exactly once". -/
theorem c6_close_counterexample :
    (writerWrapperClose ⟨false, true, true, (0, none), none, 0, 0⟩).2.flushCalls = 0 ∧
      (writerWrapperClose ⟨false, true, true, (0, none), none, 0, 0⟩).2.closeCalls = 1 ∧
      (loggerClose ⟨true, false, none, none, 0, 0⟩).1 = none ∧
      (loggerClose ⟨true, false, none, none, 0, 0⟩).2.closeCalls = 0 := by
  decide

/-- C6 amended: `Logger.Close` first syncs; when sync returns a non-nil error
that error is returned and no close happens; when sync succeeds the handler's
close is invoked exactly once if the handler implements `io.Closer` (its
error is returned) and not at all otherwise; `writerWrapper.Close` never
flushes: it closes the underlying writer exactly once when it implements
`io.Closer`, returning that error, and returns `nil` untouched otherwise. -/
theorem c6_close_amended (h : Handler) (u : Underlying) :
    (∀ e, h.isSyncer = true → h.syncResult = some e →
      loggerClose h = (some e, { h with syncCalls := h.syncCalls + 1 })) ∧
    ((h.isSyncer = false ∨ h.syncResult = none) →
      (loggerClose h).1 = (if h.isCloser then h.closeResult else none) ∧
        (loggerClose h).2.closeCalls =
          h.closeCalls + (if h.isCloser then 1 else 0)) ∧
    ((writerWrapperClose u).2.flushCalls = u.flushCalls ∧
      (writerWrapperClose u).2.closeCalls = u.closeCalls + (if u.isCloser then 1 else 0) ∧
      (writerWrapperClose u).1 = (if u.isCloser then u.closeResult else none)) := by
  refine ⟨?_, ?_, ?_⟩
  · intro e hs hr
    simp [loggerClose, loggerSync, hs, hr]
  · intro hsync
    by_cases hc : h.isCloser
    · rcases hsync with hs | hr
      · simp [loggerClose, loggerSync, hs, hc]
      · by_cases hs : h.isSyncer <;> simp [loggerClose, loggerSync, hs, hr, hc]
    · rcases hsync with hs | hr
      · simp [loggerClose, loggerSync, hs, hc]
      · by_cases hs : h.isSyncer <;> simp [loggerClose, loggerSync, hs, hr, hc]
  · by_cases hc : u.isCloser <;> simp [writerWrapperClose, hc]

/-- C2: with rotation enabled, rotation happens before a write of `b` exactly
when `currentSize > 0` and `currentSize + len(b) > maxSize`; the payload is
never split across files — after a rotating write the fresh file holds
exactly `b`, after a non-rotating write `b` sits contiguously at the end of
the current file — and a single write larger than `maxSize` on a fresh file
rotates nothing and yields one oversized file whose content is exactly the
payload. -/
theorem c2_rotation_boundary (f : SizeRollingFile) (b : List Nat) :
    (f.shouldRotate b = true ↔ 0 < f.currentSize ∧ f.maxSize < f.currentSize + b.length) ∧
    (f.shouldRotate b = true →
      f.write b = { rolledFiles := f.rolledFiles ++ [f.current], current := b,
                    currentSize := b.length, maxSize := f.maxSize }) ∧
    (f.shouldRotate b = false →
      f.write b = { f with current := f.current ++ b,
                           currentSize := f.currentSize + b.length }) ∧
    (f.currentSize = 0 → f.current = [] → f.maxSize < b.length →
      (f.write b).rolledFiles = f.rolledFiles ∧ (f.write b).current = b) := by
  refine ⟨?_, ?_, ?_, ?_⟩
  · simp [SizeRollingFile.shouldRotate]
  · intro h
    simp [SizeRollingFile.write, SizeRollingFile.rotate, h]
  · intro h
    simp [SizeRollingFile.write, h]
  · intro hsize hcur hover
    have hno : f.shouldRotate b = false := by
      simp [SizeRollingFile.shouldRotate, hsize]
    simp [SizeRollingFile.write, hno, hcur]

/-- Witness for C2: `maxSize = 100`, a single 150-byte write on a fresh sink
rotates nothing and leaves one 150-byte file containing the payload. -/
theorem c2_rotation_boundary_witness :
    ((⟨[], [], 0, 100⟩ : SizeRollingFile).write (List.replicate 150 7)).rolledFiles = [] ∧
      ((⟨[], [], 0, 100⟩ : SizeRollingFile).write (List.replicate 150 7)).current =
        List.replicate 150 7 :=
  (c2_rotation_boundary ⟨[], [], 0, 100⟩ (List.replicate 150 7)).2.2.2
    rfl rfl (by simp)

/-- C3: the default filename generator does not guarantee distinct paths for
two invocations with the same directory and the same formatted clock
reading — both `42` draws are possible values of `rand.Intn(1000000)` and
they produce the identical path, so the universally-quantified distinctness
claim is false. -/
theorem c3_name_collision :
    42 < 1000000 ∧
    defaultGeneratedName "logs" "20200304-145246" 42 =
      defaultGeneratedName "logs" "20200304-145246" 42 ∧
    ¬ (∀ (d t : String) (r₁ r₂ : Nat), r₁ < 1000000 → r₂ < 1000000 →
        defaultGeneratedName d t r₁ ≠ defaultGeneratedName d t r₂) :=
  ⟨by decide, rfl, fun h => h "logs" "20200304-145246" 42 42
    (by decide) (by decide) rfl⟩

/-- C5: after any number `n` of ticks of the auto-sync task, sync has been
invoked exactly `n` times; every non-nil sync error — and nothing else — has
been routed, in order, to the process-wide error handler under the task's
operation name; and the task always proceeds from tick `n` to tick `n + 1`
regardless of errors (the loop never terminates and exposes no return
channel to a caller). -/
theorem c5_auto_sync_task (op : String) (results : Nat → Option String) (n : Nat) :
    (runSyncTask op results n).syncCalls = n ∧
    (runSyncTask op results n).handledErrors =
      (List.range n).filterMap (fun k => (results k).map (fun e => (op, e))) ∧
    runSyncTask op results (n + 1) = syncTick op (results n) (runSyncTask op results n) := by
  refine ⟨?_, ?_, rfl⟩
  · induction n with
    | zero => rfl
    | succ m ih => simp [runSyncTask, syncTick, ih]
  · induction n with
    | zero => rfl
    | succ m ih =>
      rw [List.range_succ, List.filterMap_append]
      cases hres : results m <;>
        simp [runSyncTask, syncTick, ih, hres]

/-- Witness for C6 (amended) at a concrete syncing, closeable handler and a
concrete closeable underlying writer. -/
theorem c6_close_amended_witness :
    ((loggerClose ⟨true, true, none, none, 0, 0⟩).1 =
        (if (true : Bool) then (none : Option String) else none) ∧
      (loggerClose ⟨true, true, none, none, 0, 0⟩).2.closeCalls =
        0 + (if (true : Bool) then 1 else 0)) ∧
    ((writerWrapperClose ⟨false, true, true, (0, none), none, 0, 0⟩).2.flushCalls = 0 ∧
      (writerWrapperClose ⟨false, true, true, (0, none), none, 0, 0⟩).2.closeCalls =
        0 + (if (true : Bool) then 1 else 0) ∧
      (writerWrapperClose ⟨false, true, true, (0, none), none, 0, 0⟩).1 =
        (if (true : Bool) then (none : Option String) else none)) :=
  ⟨(c6_close_amended ⟨true, true, none, none, 0, 0⟩
      ⟨false, true, true, (0, none), none, 0, 0⟩).2.1 (Or.inr rfl),
    (c6_close_amended ⟨true, true, none, none, 0, 0⟩
      ⟨false, true, true, (0, none), none, 0, 0⟩).2.2⟩

end Logit
